import Mathlib

/-!
Verification of the Item CRUD core of the fastapi-uv-template repository.

The embedding models the Item entity (`database/models/item.py`), the
request-shaping schemas (`schemas/item.py`), the service layer
(`api/v1/items/services.py`) and the endpoint handlers
(`api/v1/items/views.py`).

The backing store is modelled as the list of committed rows together with
the next id the store will assign.  Each service operation is a state
transformer `Store → (result, Store, Bool)`: the returned store is the
committed state visible to subsequent readers after the call, and the
final boolean records whether the operation executed `db.commit()` on its
taken code path.  A database constraint failure (IntegrityError raised by
the driver) is modelled as an `Except.error` result, with the committed
store left unchanged (the transaction never commits, so it rolls back).
-/

/-- One row of the `items` table (`database/models/item.py`):
`id` integer primary key, `name` unique non-null string,
`description` nullable string. -/
structure Item where
  id : Nat
  name : String
  description : Option String
deriving Repr, DecidableEq

/-- The committed state of the backing store: the rows of the `items`
table in insertion order, plus the next primary-key value the store will
assign.  Modelled from the spec: id assignment lives in the database
engine, not under `src/`; the spec states ids are "uniquely assigned by
the store on creation" and "never reused", which a monotone counter
realises. -/
structure Store where
  items : List Item
  nextId : Nat
deriving Repr, DecidableEq

/-- Well-formedness maintained by the store: primary keys are distinct,
names are distinct (the unique constraint), and every row's id was
assigned by the counter. -/
def Store.WF (s : Store) : Prop :=
  s.items.Pairwise (fun a b => a.id ≠ b.id ∧ a.name ≠ b.name) ∧
    ∀ it ∈ s.items, it.id < s.nextId

/-- `schemas/item.py` `ItemCreate`: required `name`, optional
`description`. -/
structure ItemCreate where
  name : String
  description : Option String
deriving Repr, DecidableEq

/-- `schemas/item.py` `ItemUpdate`: both fields optional.  A Pydantic
field can be unset (`none` here), explicitly set to null (`some none`),
or set to a string (`some (some v)`); `model_dump(exclude_unset=True)`
keeps exactly the fields whose outer layer is `some`, including those
explicitly set to null. -/
structure ItemUpdate where
  name : Option (Option String)
  description : Option (Option String)
deriving Repr, DecidableEq

/-- Constraint failures the database raises at statement/commit time:
the unique constraint on `name`, and the non-null constraint on
`name`. -/
inductive DBError where
  | uniqueViolation
  | notNullViolation
deriving Repr, DecidableEq

deriving instance DecidableEq for Except

namespace ItemService

/-- `ItemService.get_item`: `SELECT ... WHERE id = item_id`, first row or
`None`.  Executes no commit and leaves the committed store unchanged. -/
def get_item (s : Store) (item_id : Nat) : Option Item × Store × Bool :=
  (s.items.find? (fun i => i.id == item_id), s, false)

/-- `ItemService.get_all_items`: `SELECT` of the whole table, returned as
a list in store order.  Executes no commit. -/
def get_all_items (s : Store) : List Item × Store × Bool :=
  (s.items, s, false)

/-- `ItemService.create_item`: inserts a new row built from the create
schema and commits.  If the new name collides with an existing row's
name, the unique constraint makes the commit raise IntegrityError and the
committed store is unchanged.  The store assigns the fresh id. -/
def create_item (s : Store) (item_data : ItemCreate) :
    Except DBError Item × Store × Bool :=
  if s.items.any (fun i => i.name == item_data.name) then
    (Except.error DBError.uniqueViolation, s, false)
  else
    let db_item : Item := ⟨s.nextId, item_data.name, item_data.description⟩
    (Except.ok db_item, ⟨s.items ++ [db_item], s.nextId + 1⟩, true)

/-- The row produced by `UPDATE items SET <set fields> WHERE id = ...`:
each field present in the `exclude_unset` dump is written, the others
keep their stored values. -/
def applyUpdates (it : Item) (updates : ItemUpdate) : Item :=
  { it with
    name := match updates.name with
      | some (some n) => n
      | _ => it.name
    description := match updates.description with
      | some d => d
      | none => it.description }

/-- `ItemService.update_item`: if `model_dump(exclude_unset=True)` is
empty, delegates to `get_item` with no write and no commit.  Otherwise it
executes `UPDATE ... WHERE id = item_id RETURNING`: if no row matches it
returns `None` without committing; if a row matches, writing null into
`name` violates the non-null constraint, and writing a name held by a
different row violates the unique constraint (IntegrityError, no commit);
otherwise the row is rewritten and the call commits. -/
def update_item (s : Store) (item_id : Nat) (updates : ItemUpdate) :
    Except DBError (Option Item) × Store × Bool :=
  if updates.name = none ∧ updates.description = none then
    (Except.ok (get_item s item_id).1, s, false)
  else
    match s.items.find? (fun i => i.id == item_id) with
    | none => (Except.ok none, s, false)
    | some it =>
      if updates.name = some none then
        (Except.error DBError.notNullViolation, s, false)
      else
        let updated_item := applyUpdates it updates
        if s.items.any (fun o => o.id != item_id && o.name == updated_item.name) then
          (Except.error DBError.uniqueViolation, s, false)
        else
          (Except.ok (some updated_item),
            ⟨s.items.map (fun o => if o.id == item_id then updated_item else o),
              s.nextId⟩,
            true)

/-- `ItemService.delete_item`: `DELETE ... WHERE id = item_id`; if the
statement's rowcount is zero it returns `False` without committing,
otherwise it commits and returns `True`. -/
def delete_item (s : Store) (item_id : Nat) : Bool × Store × Bool :=
  let remaining := s.items.filter (fun i => i.id != item_id)
  if remaining.length = s.items.length then
    (false, s, false)
  else
    (true, ⟨remaining, s.nextId⟩, true)

end ItemService

/-- An HTTP response body as produced by the item endpoints. -/
inductive Body where
  | itemBody (it : Item)
  | itemList (l : List Item)
  | detail (msg : String)
  | empty
deriving Repr, DecidableEq

/-- Status code plus body. -/
structure HttpResponse where
  status : Nat
  body : Body
deriving Repr, DecidableEq

namespace ItemView

/-- `ItemView.get_all_items`: 200 with the full list. -/
def get_all_items (s : Store) : HttpResponse × Store :=
  let r := ItemService.get_all_items s
  (⟨200, Body.itemList r.1⟩, r.2.1)

/-- `ItemView.get_single_item`: 404 with detail "Item not found" when the
service returns `None`, else 200 with the item. -/
def get_single_item (s : Store) (item_id : Nat) : HttpResponse × Store :=
  let r := ItemService.get_item s item_id
  match r.1 with
  | none => (⟨404, Body.detail "Item not found"⟩, r.2.1)
  | some it => (⟨200, Body.itemBody it⟩, r.2.1)

/-- `ItemView.create_item`: 201 with the created item on success; a
store-level constraint failure propagates out of the handler
unmapped. -/
def create_item (s : Store) (item_data : ItemCreate) :
    Except DBError HttpResponse × Store :=
  let r := ItemService.create_item s item_data
  match r.1 with
  | Except.error e => (Except.error e, r.2.1)
  | Except.ok it => (Except.ok ⟨201, Body.itemBody it⟩, r.2.1)

/-- `ItemView.update_item`: 404 with detail "Item not found" when the
service returns `None`, 200 with the updated item on success; a
constraint failure propagates unmapped. -/
def update_item (s : Store) (item_id : Nat) (item_data : ItemUpdate) :
    Except DBError HttpResponse × Store :=
  let r := ItemService.update_item s item_id item_data
  match r.1 with
  | Except.error e => (Except.error e, r.2.1)
  | Except.ok none => (Except.ok ⟨404, Body.detail "Item not found"⟩, r.2.1)
  | Except.ok (some it) => (Except.ok ⟨200, Body.itemBody it⟩, r.2.1)

/-- `ItemView.delete_item`: 404 with detail "Item not found" when the
service returns `False`, else 204 with an empty body. -/
def delete_item (s : Store) (item_id : Nat) : HttpResponse × Store :=
  let r := ItemService.delete_item s item_id
  if r.1 then (⟨204, Body.empty⟩, r.2.1)
  else (⟨404, Body.detail "Item not found"⟩, r.2.1)

end ItemView

/-! ### Helper lemmas -/

/-- In a list with pairwise-distinct ids, the primary-key lookup finds
the member itself. -/
theorem find_by_id_of_mem {l : List Item} {it : Item}
    (hp : l.Pairwise (fun a b => a.id ≠ b.id)) (hm : it ∈ l) :
    l.find? (fun i => i.id == it.id) = some it := by
  induction l with
  | nil => cases hm
  | cons a tl ih =>
    rw [List.pairwise_cons] at hp
    rcases List.mem_cons.mp hm with h | h
    · subst h
      simp [List.find?_cons]
    · have hne : a.id ≠ it.id := hp.1 it h
      simp only [List.find?_cons]
      rw [show (a.id == it.id) = false from by simpa using hne]
      exact ih hp.2 h

/-- A well-formed store has pairwise-distinct ids. -/
theorem Store.WF.ids_pairwise {s : Store} (h : s.WF) :
    s.items.Pairwise (fun a b => a.id ≠ b.id) :=
  h.1.imp (fun hab => hab.1)

/-- The combined distinctness relation on rows is symmetric. -/
theorem store_rel_symm :
    Symmetric (fun a b : Item => a.id ≠ b.id ∧ a.name ≠ b.name) :=
  fun _ _ hab => ⟨hab.1.symm, hab.2.symm⟩

/-! ### Claims -/

/-- C1: for every id, `update_item` with an empty set-field set is
equivalent to `get_item(id)`: it performs no store write and no commit,
and returns the item currently stored under that id, or `none` if no
such item exists. -/
theorem update_item_empty_fields_is_get (s : Store) (item_id : Nat)
    (updates : ItemUpdate) (hn : updates.name = none)
    (hd : updates.description = none) :
    ItemService.update_item s item_id updates =
      (Except.ok (ItemService.get_item s item_id).1, s, false) := by
  simp [ItemService.update_item, hn, hd]

/-- C1 witness: the empty update on a concrete one-item store returns the
stored item and leaves the store untouched. -/
theorem update_item_empty_fields_is_get_witness :
    ItemService.update_item ⟨[⟨1, "Laptop", some "fast"⟩], 2⟩ 1 ⟨none, none⟩ =
      (Except.ok (some ⟨1, "Laptop", some "fast"⟩),
        ⟨[⟨1, "Laptop", some "fast"⟩], 2⟩, false) := by
  rw [update_item_empty_fields_is_get ⟨[⟨1, "Laptop", some "fast"⟩], 2⟩ 1
    ⟨none, none⟩ rfl rfl]
  rfl

/-- C10: `get_item` and `get_all_items` never commit and leave the store
unchanged; two consecutive reads with no intervening mutation observe the
same items. -/
theorem reads_never_commit_nor_mutate (s : Store) (item_id other_id : Nat) :
    (ItemService.get_item s item_id).2 = (s, false) ∧
    (ItemService.get_all_items s).2 = (s, false) ∧
    (ItemService.get_item (ItemService.get_all_items s).2.1 other_id).1 =
      (ItemService.get_item s other_id).1 ∧
    (ItemService.get_all_items (ItemService.get_item s item_id).2.1).1 =
      (ItemService.get_all_items s).1 :=
  ⟨rfl, rfl, rfl, rfl⟩

/-- C8: `get_all_items` returns the entire table in store order — every
stored item and nothing else, with no commit and no state change — and
the list endpoint serves exactly that sequence with status 200. -/
theorem get_all_items_entire_table (s : Store) :
    (ItemService.get_all_items s).1 = s.items ∧
    (∀ it, it ∈ (ItemService.get_all_items s).1 ↔ it ∈ s.items) ∧
    (ItemService.get_all_items s).1.length = s.items.length ∧
    ItemView.get_all_items s = (⟨200, Body.itemList s.items⟩, s) :=
  ⟨rfl, fun _ => Iff.rfl, rfl, rfl⟩

/-- C4: `delete_item` returns `true` exactly when a row with the given id
was present, in which case a subsequent `get_item` on the committed store
returns `none`; on an absent id it returns `false` with the store
unchanged and no commit, raising no error. -/
theorem delete_item_boolean_absence (s : Store) (item_id : Nat) :
    ((ItemService.delete_item s item_id).1 = true ↔
      ∃ it ∈ s.items, it.id = item_id) ∧
    ((ItemService.delete_item s item_id).1 = true →
      (ItemService.get_item (ItemService.delete_item s item_id).2.1 item_id).1 =
        none) ∧
    ((ItemService.delete_item s item_id).1 = false →
      (ItemService.delete_item s item_id).2 = (s, false)) := by
  by_cases h : (s.items.filter (fun i => i.id != item_id)).length = s.items.length
  · have hall : ∀ it ∈ s.items, it.id ≠ item_id := by
      intro it hm
      simpa using List.filter_length_eq_length.mp h it hm
    have hres : ItemService.delete_item s item_id = (false, s, false) := by
      simp [ItemService.delete_item, h]
    refine ⟨?_, ?_, ?_⟩ <;> rw [hres]
    · simp only [Bool.false_eq_true, false_iff]
      rintro ⟨it, hm, heq⟩
      exact hall it hm heq
    · intro hf
      cases hf
    · intro _
      rfl
  · have hres : ItemService.delete_item s item_id =
        (true, ⟨s.items.filter (fun i => i.id != item_id), s.nextId⟩, true) := by
      simp [ItemService.delete_item, h]
    have hex : ∃ it ∈ s.items, it.id = item_id := by
      by_contra hno
      push_neg at hno
      apply h
      apply List.filter_length_eq_length.mpr
      intro a ha
      simpa using hno a ha
    refine ⟨?_, ?_, ?_⟩ <;> rw [hres]
    · simpa using hex
    · intro _
      simp only [ItemService.get_item]
      rw [List.find?_eq_none]
      intro x hx
      simpa using (List.mem_filter.mp hx).2
    · intro hf
      cases hf

/-- C4 witness: deleting the present id 1 reports `true` and the row is
gone; deleting the absent id 9 reports `false` with the store intact. -/
theorem delete_item_boolean_absence_witness :
    (ItemService.delete_item ⟨[⟨1, "Laptop", none⟩], 2⟩ 1).1 = true ∧
    (ItemService.get_item
        (ItemService.delete_item ⟨[⟨1, "Laptop", none⟩], 2⟩ 1).2.1 1).1 = none ∧
    (ItemService.delete_item ⟨[⟨1, "Laptop", none⟩], 2⟩ 9).2 =
      (⟨[⟨1, "Laptop", none⟩], 2⟩, false) := by
  refine ⟨?_, ?_, ?_⟩
  · exact (delete_item_boolean_absence ⟨[⟨1, "Laptop", none⟩], 2⟩ 1).1.mpr
      ⟨⟨1, "Laptop", none⟩, by decide, rfl⟩
  · exact (delete_item_boolean_absence ⟨[⟨1, "Laptop", none⟩], 2⟩ 1).2.1 (by decide)
  · exact (delete_item_boolean_absence ⟨[⟨1, "Laptop", none⟩], 2⟩ 9).2.2 (by decide)

/-- C9: a mutating call whose taken path never commits leaves the
committed store exactly as it was; in particular `update_item` on an
absent id returns `none` with no commit and no state change, and
`delete_item` on an absent id returns `false` likewise. -/
theorem mutating_call_without_commit_is_noop (s : Store) (item_id : Nat)
    (updates : ItemUpdate) (item_data : ItemCreate) :
    ((ItemService.create_item s item_data).2.2 = false →
      (ItemService.create_item s item_data).2.1 = s) ∧
    ((ItemService.update_item s item_id updates).2.2 = false →
      (ItemService.update_item s item_id updates).2.1 = s) ∧
    ((ItemService.delete_item s item_id).2.2 = false →
      (ItemService.delete_item s item_id).2.1 = s) ∧
    ((ItemService.get_item s item_id).1 = none →
      ItemService.update_item s item_id updates = (Except.ok none, s, false)) ∧
    ((ItemService.get_item s item_id).1 = none →
      ItemService.delete_item s item_id = (false, s, false)) := by
  have hfind : (ItemService.get_item s item_id).1 =
      s.items.find? (fun i => i.id == item_id) := rfl
  refine ⟨?_, ?_, ?_, ?_, ?_⟩
  · by_cases hc : s.items.any (fun i => i.name == item_data.name)
    · simp [ItemService.create_item, hc]
    · simp [ItemService.create_item, hc]
  · by_cases hempty : updates.name = none ∧ updates.description = none
    · simp [ItemService.update_item, hempty]
    · cases hf : s.items.find? (fun i => i.id == item_id) with
      | none => simp [ItemService.update_item, hempty, hf]
      | some it =>
        by_cases hnull : updates.name = some none
        · simp [ItemService.update_item, hempty, hf, hnull]
        · by_cases hdup : s.items.any
              (fun o => o.id != item_id &&
                o.name == (ItemService.applyUpdates it updates).name)
          · simp [ItemService.update_item, hempty, hf, hnull, hdup]
          · simp [ItemService.update_item, hempty, hf, hnull, hdup]
  · by_cases h : (s.items.filter (fun i => i.id != item_id)).length =
        s.items.length
    · simp [ItemService.delete_item, h]
    · simp [ItemService.delete_item, h]
  · intro hget
    rw [hfind] at hget
    by_cases hempty : updates.name = none ∧ updates.description = none
    · simp [ItemService.update_item, hempty, ItemService.get_item, hget]
    · simp [ItemService.update_item, hempty, hget]
  · intro hget
    rw [hfind] at hget
    have hall : ∀ it ∈ s.items, (it.id != item_id) = true := by
      intro it hm
      simpa using List.find?_eq_none.mp hget it hm
    have hfilter : s.items.filter (fun i => i.id != item_id) = s.items :=
      List.filter_eq_self.mpr hall
    simp [ItemService.delete_item, hfilter]

/-- C9 witness: on the absent id 9 of a concrete store, a non-empty
update returns `none` without committing and delete returns `false`
without committing; the uncommitted create error path also leaves the
store unchanged. -/
theorem mutating_call_without_commit_is_noop_witness :
    ItemService.update_item ⟨[⟨1, "Laptop", none⟩], 2⟩ 9
        ⟨some (some "X"), none⟩ =
      (Except.ok none, ⟨[⟨1, "Laptop", none⟩], 2⟩, false) ∧
    ItemService.delete_item ⟨[⟨1, "Laptop", none⟩], 2⟩ 9 =
      (false, ⟨[⟨1, "Laptop", none⟩], 2⟩, false) ∧
    (ItemService.create_item ⟨[⟨1, "Laptop", none⟩], 2⟩ ⟨"Laptop", none⟩).2.1 =
      ⟨[⟨1, "Laptop", none⟩], 2⟩ := by
  refine ⟨?_, ?_, ?_⟩
  · exact (mutating_call_without_commit_is_noop ⟨[⟨1, "Laptop", none⟩], 2⟩ 9
      ⟨some (some "X"), none⟩ ⟨"Laptop", none⟩).2.2.2.1 (by decide)
  · exact (mutating_call_without_commit_is_noop ⟨[⟨1, "Laptop", none⟩], 2⟩ 9
      ⟨some (some "X"), none⟩ ⟨"Laptop", none⟩).2.2.2.2 (by decide)
  · exact (mutating_call_without_commit_is_noop ⟨[⟨1, "Laptop", none⟩], 2⟩ 9
      ⟨some (some "X"), none⟩ ⟨"Laptop", none⟩).1 (by decide)

/-- C2: when the store already holds an item with the requested name,
`create_item` fails with the distinguishable uniqueness violation, does
not commit, leaves the store unchanged, and the first item remains
retrievable with its fields unaffected. -/
theorem create_item_duplicate_name_fails (s : Store) (item_data : ItemCreate)
    (it : Item) (hwf : s.WF) (hmem : it ∈ s.items)
    (hname : it.name = item_data.name) :
    (ItemService.create_item s item_data).1 =
      Except.error DBError.uniqueViolation ∧
    (ItemService.create_item s item_data).2 = (s, false) ∧
    (ItemService.get_item (ItemService.create_item s item_data).2.1
      it.id).1 = some it := by
  have hany : s.items.any (fun i => i.name == item_data.name) = true :=
    List.any_eq_true.mpr ⟨it, hmem, by simp [hname]⟩
  have hres : ItemService.create_item s item_data =
      (Except.error DBError.uniqueViolation, s, false) := by
    simp [ItemService.create_item, hany]
  refine ⟨by rw [hres], by rw [hres], ?_⟩
  rw [hres]
  exact find_by_id_of_mem (Store.WF.ids_pairwise hwf) hmem

/-- C2 witness: creating a second "Laptop" against a concrete store fails
with the uniqueness violation and the first "Laptop" row is still
retrieved intact. -/
theorem create_item_duplicate_name_fails_witness :
    (ItemService.create_item ⟨[⟨1, "Laptop", some "fast"⟩], 2⟩
        ⟨"Laptop", some "other"⟩).1 = Except.error DBError.uniqueViolation ∧
    (ItemService.get_item
        (ItemService.create_item ⟨[⟨1, "Laptop", some "fast"⟩], 2⟩
          ⟨"Laptop", some "other"⟩).2.1 1).1 =
      some ⟨1, "Laptop", some "fast"⟩ := by
  have h := create_item_duplicate_name_fails ⟨[⟨1, "Laptop", some "fast"⟩], 2⟩
    ⟨"Laptop", some "other"⟩ ⟨1, "Laptop", some "fast"⟩
    ⟨by decide, by decide⟩ (by decide) rfl
  exact ⟨h.1, h.2.2⟩

/-- C3: on a well-formed store with no name collision, `create_item`
succeeds with a freshly assigned id used by no existing row, commits,
and a subsequent `get_item` on that id returns an item carrying the
requested name and description. -/
theorem create_then_get_roundtrip (s : Store) (item_data : ItemCreate)
    (hwf : s.WF) (hfresh : ∀ it ∈ s.items, it.name ≠ item_data.name) :
    ∃ new_item,
      (ItemService.create_item s item_data).1 = Except.ok new_item ∧
      (∀ old ∈ s.items, old.id ≠ new_item.id) ∧
      new_item.name = item_data.name ∧
      new_item.description = item_data.description ∧
      (ItemService.get_item (ItemService.create_item s item_data).2.1
        new_item.id).1 = some new_item ∧
      (ItemService.create_item s item_data).2.2 = true := by
  have hany : s.items.any (fun i => i.name == item_data.name) = false := by
    rw [Bool.eq_false_iff]
    intro hc
    rcases List.any_eq_true.mp hc with ⟨it, hm, hb⟩
    exact hfresh it hm (by simpa using hb)
  have hres : ItemService.create_item s item_data =
      (Except.ok ⟨s.nextId, item_data.name, item_data.description⟩,
        ⟨s.items ++ [⟨s.nextId, item_data.name, item_data.description⟩],
          s.nextId + 1⟩, true) := by
    simp [ItemService.create_item, hany]
  refine ⟨⟨s.nextId, item_data.name, item_data.description⟩,
    by rw [hres], ?_, rfl, rfl, ?_, by rw [hres]⟩
  · intro old hold
    exact Nat.ne_of_lt (hwf.2 old hold)
  · rw [hres]
    show (s.items ++
        [(⟨s.nextId, item_data.name, item_data.description⟩ : Item)]).find?
        (fun i => i.id == s.nextId) =
      some ⟨s.nextId, item_data.name, item_data.description⟩
    rw [List.find?_append]
    have h1 : s.items.find? (fun i => i.id == s.nextId) = none := by
      rw [List.find?_eq_none]
      intro x hx
      simpa using Nat.ne_of_lt (hwf.2 x hx)
    rw [h1]
    simp [List.find?_cons]

/-- C3 witness: creating "Laptop" on a concrete one-item store yields a
fresh id, a commit, and a successful read-back of the stored fields. -/
theorem create_then_get_roundtrip_witness :
    ∃ new_item,
      (ItemService.create_item ⟨[⟨1, "A", none⟩], 2⟩
        ⟨"Laptop", some "fast"⟩).1 = Except.ok new_item ∧
      (∀ old ∈ ([⟨1, "A", none⟩] : List Item), old.id ≠ new_item.id) ∧
      new_item.name = "Laptop" ∧
      new_item.description = some "fast" ∧
      (ItemService.get_item
        (ItemService.create_item ⟨[⟨1, "A", none⟩], 2⟩
          ⟨"Laptop", some "fast"⟩).2.1 new_item.id).1 = some new_item ∧
      (ItemService.create_item ⟨[⟨1, "A", none⟩], 2⟩
        ⟨"Laptop", some "fast"⟩).2.2 = true :=
  create_then_get_roundtrip ⟨[⟨1, "A", none⟩], 2⟩ ⟨"Laptop", some "fast"⟩
    ⟨by decide, by decide⟩ (by decide)

/-- C5 counterexample: on the store holding `⟨1, "Laptop", some "Old"⟩`,
an update whose payload explicitly sets `description` to null is not
treated like an absent field: the stored description is overwritten to
`none` and the row is rewritten, so the prior value is not retained. -/
theorem update_item_explicit_null_is_written :
    (ItemService.update_item ⟨[⟨1, "Laptop", some "Old"⟩], 2⟩ 1
        ⟨none, some none⟩).1 = Except.ok (some ⟨1, "Laptop", none⟩) ∧
    (ItemService.update_item ⟨[⟨1, "Laptop", some "Old"⟩], 2⟩ 1
        ⟨none, some none⟩).2.1.items = [⟨1, "Laptop", none⟩] ∧
    ¬ ((ItemService.update_item ⟨[⟨1, "Laptop", some "Old"⟩], 2⟩ 1
          ⟨none, some none⟩).1 = Except.ok (some ⟨1, "Laptop", some "Old"⟩) ∧
        (ItemService.update_item ⟨[⟨1, "Laptop", some "Old"⟩], 2⟩ 1
          ⟨none, some none⟩).2.1 = ⟨[⟨1, "Laptop", some "Old"⟩], 2⟩) := by
  decide

/-- C5 amended: a field absent from the update payload retains its prior
value, but a field explicitly supplied as null is part of the
`exclude_unset` dump and is written: an explicit null `description`
clears the stored value (while the absent `name` keeps its prior value),
and an explicit null `name` fails the non-null constraint — explicit
null is distinguished from absence. -/
theorem update_item_explicit_null_distinguished (s : Store) (item_id : Nat)
    (it : Item) (hwf : s.WF)
    (hget : (ItemService.get_item s item_id).1 = some it) :
    (ItemService.update_item s item_id ⟨none, some none⟩).1 =
      Except.ok (some { it with description := none }) ∧
    (ItemService.update_item s item_id ⟨some none, none⟩).1 =
      Except.error DBError.notNullViolation := by
  have hfind : s.items.find? (fun i => i.id == item_id) = some it := hget
  have hmem : it ∈ s.items := List.mem_of_find?_eq_some hfind
  have hid : it.id = item_id := by simpa using List.find?_some hfind
  constructor
  · have hno : ¬ ∃ x ∈ s.items, ¬x.id = item_id ∧ x.name = it.name := by
      rintro ⟨o, hom, hone, honame⟩
      have hne : o ≠ it := fun he => hone (he ▸ hid)
      exact (List.Pairwise.forall store_rel_symm hwf.1 hom hmem hne).2 honame
    simp [ItemService.update_item, hfind, ItemService.applyUpdates, hno]
  · simp [ItemService.update_item, hfind]

/-- C5 amended witness: on a concrete store, the explicit-null
description is cleared while the absent name is kept, and the
explicit-null name raises the non-null violation. -/
theorem update_item_explicit_null_distinguished_witness :
    (ItemService.update_item ⟨[⟨1, "Laptop", some "Old"⟩], 2⟩ 1
        ⟨none, some none⟩).1 = Except.ok (some ⟨1, "Laptop", none⟩) ∧
    (ItemService.update_item ⟨[⟨1, "Laptop", some "Old"⟩], 2⟩ 1
        ⟨some none, none⟩).1 = Except.error DBError.notNullViolation :=
  update_item_explicit_null_distinguished ⟨[⟨1, "Laptop", some "Old"⟩], 2⟩ 1
    ⟨1, "Laptop", some "Old"⟩ ⟨by decide, by decide⟩ rfl

/-- C6: the single-item, update and delete handlers answer
404 `{detail: "Item not found"}` exactly on the service outcomes that
signal absence (`none` for get/update, `false` for delete), answer 200
with the item on a successful get/update, and 204 with an empty body on
a successful delete. -/
theorem endpoint_not_found_mapping (s : Store) (item_id : Nat)
    (updates : ItemUpdate) :
    ((ItemService.get_item s item_id).1 = none →
      ItemView.get_single_item s item_id =
        (⟨404, Body.detail "Item not found"⟩, s)) ∧
    (∀ it, (ItemService.get_item s item_id).1 = some it →
      ItemView.get_single_item s item_id = (⟨200, Body.itemBody it⟩, s)) ∧
    ((ItemService.update_item s item_id updates).1 = Except.ok none →
      (ItemView.update_item s item_id updates).1 =
        Except.ok ⟨404, Body.detail "Item not found"⟩) ∧
    (∀ it, (ItemService.update_item s item_id updates).1 =
        Except.ok (some it) →
      (ItemView.update_item s item_id updates).1 =
        Except.ok ⟨200, Body.itemBody it⟩) ∧
    ((ItemService.delete_item s item_id).1 = false →
      (ItemView.delete_item s item_id).1 =
        ⟨404, Body.detail "Item not found"⟩) ∧
    ((ItemService.delete_item s item_id).1 = true →
      (ItemView.delete_item s item_id).1 = ⟨204, Body.empty⟩) := by
  refine ⟨?_, ?_, ?_, ?_, ?_, ?_⟩
  · intro h
    have h2 : s.items.find? (fun i => i.id == item_id) = none := h
    simp [ItemView.get_single_item, ItemService.get_item, h2]
  · intro it h
    have h2 : s.items.find? (fun i => i.id == item_id) = some it := h
    simp [ItemView.get_single_item, ItemService.get_item, h2]
  · intro h
    simp [ItemView.update_item, h]
  · intro it h
    simp [ItemView.update_item, h]
  · intro h
    simp [ItemView.delete_item, h]
  · intro h
    simp [ItemView.delete_item, h]

/-- C6 witness: on a concrete empty store, id 3 yields 404 with the fixed
detail from the get, update and delete handlers. -/
theorem endpoint_not_found_mapping_witness :
    ItemView.get_single_item ⟨[], 5⟩ 3 =
      (⟨404, Body.detail "Item not found"⟩, ⟨[], 5⟩) ∧
    (ItemView.update_item ⟨[], 5⟩ 3 ⟨some (some "N"), none⟩).1 =
      Except.ok ⟨404, Body.detail "Item not found"⟩ ∧
    (ItemView.delete_item ⟨[], 5⟩ 3).1 =
      ⟨404, Body.detail "Item not found"⟩ := by
  refine ⟨?_, ?_, ?_⟩
  · exact (endpoint_not_found_mapping ⟨[], 5⟩ 3 ⟨some (some "N"), none⟩).1 rfl
  · exact (endpoint_not_found_mapping ⟨[], 5⟩ 3
      ⟨some (some "N"), none⟩).2.2.1 rfl
  · exact (endpoint_not_found_mapping ⟨[], 5⟩ 3
      ⟨some (some "N"), none⟩).2.2.2.2.1 rfl

/-- C7: a partial update never mutates any row's id (the post-store id
sequence equals the pre-store one), rows with a different id are left
untouched, and on the returned row every field absent from the payload
retains its prior value — only supplied fields change. -/
theorem update_item_frame (s : Store) (item_id : Nat) (updates : ItemUpdate) :
    ((ItemService.update_item s item_id updates).2.1.items.map Item.id =
      s.items.map Item.id) ∧
    ((ItemService.update_item s item_id updates).2.1.nextId = s.nextId) ∧
    (∀ o ∈ s.items, o.id ≠ item_id →
      o ∈ (ItemService.update_item s item_id updates).2.1.items) ∧
    (∀ it updated, (ItemService.get_item s item_id).1 = some it →
      (ItemService.update_item s item_id updates).1 =
        Except.ok (some updated) →
      updated.id = it.id ∧
      (updates.name = none → updated.name = it.name) ∧
      (updates.description = none → updated.description = it.description)) := by
  by_cases hempty : updates.name = none ∧ updates.description = none
  · have hres : ItemService.update_item s item_id updates =
        (Except.ok (ItemService.get_item s item_id).1, s, false) := by
      simp only [ItemService.update_item, if_pos hempty]
    refine ⟨by rw [hres], by rw [hres], fun o ho _ => by rw [hres]; exact ho, ?_⟩
    intro it updated hget hupd
    rw [hres, hget] at hupd
    simp at hupd
    subst hupd
    exact ⟨rfl, fun _ => rfl, fun _ => rfl⟩
  · cases hf : s.items.find? (fun i => i.id == item_id) with
    | none =>
      have hres : ItemService.update_item s item_id updates =
          (Except.ok none, s, false) := by
        simp only [ItemService.update_item, if_neg hempty, hf]
      refine ⟨by rw [hres], by rw [hres],
        fun o ho _ => by rw [hres]; exact ho, ?_⟩
      intro it updated hget hupd
      rw [hres] at hupd
      simp at hupd
    | some it0 =>
      have hid0 : it0.id = item_id := by
        simpa using List.find?_some hf
      by_cases hnull : updates.name = some none
      · have hres : ItemService.update_item s item_id updates =
            (Except.error DBError.notNullViolation, s, false) := by
          simp only [ItemService.update_item, if_neg hempty, hf, if_pos hnull]
        refine ⟨by rw [hres], by rw [hres],
          fun o ho _ => by rw [hres]; exact ho, ?_⟩
        intro it updated hget hupd
        rw [hres] at hupd
        simp at hupd
      · by_cases hdup : (s.items.any fun o =>
            o.id != item_id &&
              o.name == (ItemService.applyUpdates it0 updates).name) = true
        · have hres : ItemService.update_item s item_id updates =
              (Except.error DBError.uniqueViolation, s, false) := by
            simp only [ItemService.update_item, if_neg hempty, hf,
              if_neg hnull, if_pos hdup]
          refine ⟨by rw [hres], by rw [hres],
            fun o ho _ => by rw [hres]; exact ho, ?_⟩
          intro it updated hget hupd
          rw [hres] at hupd
          simp at hupd
        · have hres : ItemService.update_item s item_id updates =
              (Except.ok (some (ItemService.applyUpdates it0 updates)),
                ⟨s.items.map (fun o => if o.id == item_id then
                    ItemService.applyUpdates it0 updates else o),
                  s.nextId⟩, true) := by
            simp only [ItemService.update_item, if_neg hempty, hf,
              if_neg hnull, if_neg hdup]
          refine ⟨?_, by rw [hres], ?_, ?_⟩
          · rw [hres]
            show (s.items.map (fun o => if o.id == item_id then
                ItemService.applyUpdates it0 updates else o)).map Item.id =
              s.items.map Item.id
            rw [List.map_map]
            apply List.map_congr_left
            intro a ha
            by_cases hai : a.id = item_id
            · simp [Function.comp, hai, ItemService.applyUpdates, hid0]
            · simp [Function.comp, hai]
          · intro o ho hone
            rw [hres]
            refine List.mem_map.mpr ⟨o, ho, ?_⟩
            simp [hone]
          · intro it updated hget hupd
            have hget2 : s.items.find? (fun i => i.id == item_id) = some it :=
              hget
            rw [hf] at hget2
            have hit : it0 = it := Option.some_inj.mp hget2
            rw [hres] at hupd
            have hupd2 : Except.ok (ε := DBError)
                (some (ItemService.applyUpdates it0 updates)) =
                  Except.ok (some updated) := hupd
            have hu : ItemService.applyUpdates it0 updates = updated :=
              Option.some_inj.mp (Except.ok.inj hupd2)
            subst hit
            rw [← hu]
            refine ⟨rfl, ?_, ?_⟩
            · intro hn
              simp [ItemService.applyUpdates, hn]
            · intro hd
              simp [ItemService.applyUpdates, hd]

/-- C7 witness: updating item 1's description on a concrete two-item
store leaves row 2 in place, and the updated row keeps id 1 and the
absent name field's prior value "A". -/
theorem update_item_frame_witness :
    ((⟨2, "B", none⟩ : Item) ∈
      (ItemService.update_item ⟨[⟨1, "A", some "d"⟩, ⟨2, "B", none⟩], 3⟩ 1
        ⟨none, some (some "new")⟩).2.1.items) ∧
    (⟨1, "A", some "new"⟩ : Item).id = (⟨1, "A", some "d"⟩ : Item).id ∧
    (⟨1, "A", some "new"⟩ : Item).name = (⟨1, "A", some "d"⟩ : Item).name := by
  constructor
  · exact (update_item_frame ⟨[⟨1, "A", some "d"⟩, ⟨2, "B", none⟩], 3⟩ 1
      ⟨none, some (some "new")⟩).2.2.1 ⟨2, "B", none⟩ (by decide) (by decide)
  · have h := (update_item_frame ⟨[⟨1, "A", some "d"⟩, ⟨2, "B", none⟩], 3⟩ 1
      ⟨none, some (some "new")⟩).2.2.2 ⟨1, "A", some "d"⟩ ⟨1, "A", some "new"⟩
      (by decide) (by decide)
    exact ⟨h.1, h.2.1 rfl⟩
